import Mathlib

/-!
Verification of the AtomicQuant repository: a shallow embedding of the Move
modules `risk_manager` and `vault`, and of the TypeScript SDK orchestrator
(`ptb_builder.ts`, `deepbook_service.ts`, `oracle_service.ts`), with theorems
settling the specification claims.

Modelling conventions:
* Move `u64` values are embedded as `Nat`.  Move arithmetic aborts on
  overflow instead of wrapping, so every run of the source that completes
  agrees with exact `Nat` arithmetic; theorems that depend on a
  multiplication staying in range carry an explicit `< 2 ^ 64` hypothesis.
* Move `assert!` aborts are embedded as `Except Nat` with the
  numeric abort codes; a boolean validator that can also abort is
  `Except Nat Bool`.
* Sui addresses are embedded as `Nat`; the `Clock` argument is embedded as
  the current time in seconds (the sources always use
  `clock::timestamp_ms(clock) / 1000`).
* Event emission (`event::emit`) has no effect on the program state and is
  elided, except for `DepositEvent`, which is the only place `vault::deposit`
  uses the transaction sender.
* TypeScript `number` arithmetic is embedded over `Rat`, idealizing IEEE
  doubles as exact rationals; `Math.floor`/`BigInt` truncations are `Int.floor`.
-/

/-- Decidable equality for `Except`, so that concrete runs of the embedded
operations can be checked by `decide`. -/
instance {ε α : Type} [DecidableEq ε] [DecidableEq α] :
    DecidableEq (Except ε α) := fun a b =>
  match a, b with
  | .error e, .error f =>
    if h : e = f then isTrue (by rw [h])
    else isFalse (by intro hc; cases hc; exact h rfl)
  | .error _, .ok _ => isFalse (by intro hc; cases hc)
  | .ok _, .error _ => isFalse (by intro hc; cases hc)
  | .ok x, .ok y =>
    if h : x = y then isTrue (by rw [h])
    else isFalse (by intro hc; cases hc; exact h rfl)

namespace AtomicQuant

/-! ## risk_manager.move -/

namespace risk_manager

/-- Abort code: LTV above the maximum. -/
def ELTVExceeded : Nat := 100
/-- Abort code: price confidence interval too wide. -/
def EPriceConfidenceTooWide : Nat := 101
/-- Abort code: price data stale. -/
def EPriceStale : Nat := 102
/-- Abort code: slippage above tolerance. -/
def ESlippageExceeded : Nat := 103
/-- Abort code: system paused. -/
def ESystemPaused : Nat := 104
/-- Abort code: position too large. -/
def EPositionTooLarge : Nat := 106

/-- Basis-point denominator. -/
def BPS_DENOMINATOR : Nat := 10000

/-- Source `RiskConfig` shared object (the `id: UID` field is elided). -/
structure RiskConfig where
  max_ltv_bps : Nat
  max_price_age : Nat
  max_confidence_ratio_bps : Nat
  max_slippage_bps : Nat
  max_position_size : Nat
  is_system_paused : Bool
  last_updated : Nat
deriving DecidableEq

/-- Source `PriceData` value used by the validators. -/
structure PriceData where
  price : Nat
  confidence : Nat
  expo : Nat
  publish_time : Nat
deriving DecidableEq

/-- The `RiskConfig` created by `init`: default risk parameters, unpaused. -/
def initRiskConfig : RiskConfig :=
  { max_ltv_bps := 6400
    max_price_age := 60
    max_confidence_ratio_bps := 100
    max_slippage_bps := 50
    max_position_size := 1000000000000
    is_system_paused := false
    last_updated := 0 }

/-- Source `validate_ltv`: aborts with `ESystemPaused` while paused; with zero
collateral returns whether the borrow is zero; otherwise compares
`borrow_value * 10000 / collateral_value` (floor division) with
`max_ltv_bps`.  The `RiskCheckFailedEvent` emitted on the false branch is
elided, and with it the `Clock` argument it consumed. -/
def validate_ltv (config : RiskConfig) (collateral_value borrow_value : Nat) :
    Except Nat Bool :=
  if config.is_system_paused then .error ESystemPaused
  else if collateral_value = 0 then .ok (decide (borrow_value = 0))
  else
    let ltv_bps := borrow_value * BPS_DENOMINATOR / collateral_value
    if ltv_bps > config.max_ltv_bps then .ok false else .ok true

/-- Source `assert_ltv_safe`: aborts with `ELTVExceeded` when `validate_ltv` returns
false (and propagates the paused abort). -/
def assert_ltv_safe (config : RiskConfig) (collateral_value borrow_value : Nat) :
    Except Nat Unit :=
  match validate_ltv config collateral_value borrow_value with
  | .error e => .error e
  | .ok true => .ok ()
  | .ok false => .error ELTVExceeded

/-- Source `validate_price_data`: aborts while paused; rejects stale prices
(`now > publish_time + max_price_age`) and, for a positive price, a
confidence ratio `confidence * 10000 / price` above
`max_confidence_ratio_bps`.  `now` stands for
`clock::timestamp_ms(clock) / 1000`; failure events are elided. -/
def validate_price_data (config : RiskConfig) (price_data : PriceData)
    (now : Nat) : Except Nat Bool :=
  if config.is_system_paused then .error ESystemPaused
  else if now > price_data.publish_time + config.max_price_age then .ok false
  else if price_data.price > 0 ∧
      price_data.confidence * BPS_DENOMINATOR / price_data.price >
        config.max_confidence_ratio_bps then .ok false
  else .ok true

/-- Source `assert_price_valid`: re-implements the staleness and confidence checks
with aborts `EPriceStale` and `EPriceConfidenceTooWide`.  Note: unlike every
other validator in the module, the source performs no
`is_system_paused` check here. -/
def assert_price_valid (config : RiskConfig) (price_data : PriceData)
    (now : Nat) : Except Nat Unit :=
  if now > price_data.publish_time + config.max_price_age then
    .error EPriceStale
  else if price_data.price > 0 ∧
      price_data.confidence * BPS_DENOMINATOR / price_data.price >
        config.max_confidence_ratio_bps then
    .error EPriceConfidenceTooWide
  else .ok ()

/-- Source `validate_slippage`: aborts while paused; `expected == 0` is valid only
with `actual == 0`; otherwise compares the symmetric
`|actual - expected| * 10000 / expected` with `max_slippage_bps`. -/
def validate_slippage (config : RiskConfig) (expected_price actual_price : Nat) :
    Except Nat Bool :=
  if config.is_system_paused then .error ESystemPaused
  else if expected_price = 0 then .ok (decide (actual_price = 0))
  else
    let slippage_bps :=
      if actual_price ≥ expected_price then
        (actual_price - expected_price) * BPS_DENOMINATOR / expected_price
      else
        (expected_price - actual_price) * BPS_DENOMINATOR / expected_price
    if slippage_bps > config.max_slippage_bps then .ok false else .ok true

/-- Source `assert_slippage_acceptable`: aborts with `ESlippageExceeded` when
`validate_slippage` returns false. -/
def assert_slippage_acceptable (config : RiskConfig)
    (expected_price actual_price : Nat) : Except Nat Unit :=
  match validate_slippage config expected_price actual_price with
  | .error e => .error e
  | .ok true => .ok ()
  | .ok false => .error ESlippageExceeded

/-- Source `validate_position_size`: aborts while paused; rejects sizes above
`max_position_size`. -/
def validate_position_size (config : RiskConfig) (position_size : Nat) :
    Except Nat Bool :=
  if config.is_system_paused then .error ESystemPaused
  else if position_size > config.max_position_size then .ok false
  else .ok true

/-- Source `update_risk_params` (admin-capability gated; the capability carries no
data and is elided): writes the four parameters and `last_updated`,
leaving the other fields alone. -/
def update_risk_params (config : RiskConfig)
    (max_ltv_bps max_price_age max_slippage_bps max_position_size now : Nat) :
    RiskConfig :=
  { config with
      max_ltv_bps := max_ltv_bps
      max_price_age := max_price_age
      max_slippage_bps := max_slippage_bps
      max_position_size := max_position_size
      last_updated := now }

/-- Source `emergency_pause`: sets `is_system_paused` and `last_updated`. -/
def emergency_pause (config : RiskConfig) (now : Nat) : RiskConfig :=
  { config with is_system_paused := true, last_updated := now }

/-- Source `resume_system`: clears `is_system_paused` and sets `last_updated`. -/
def resume_system (config : RiskConfig) (now : Nat) : RiskConfig :=
  { config with is_system_paused := false, last_updated := now }

end risk_manager

/-! ## vault.move -/

namespace vault

/-- Abort code: deposit amount must be positive. -/
def EDepositAmountZero : Nat := 1
/-- Abort code: withdrawal exceeds the available balance. -/
def EInsufficientBalance : Nat := 2
/-- Abort code: caller is not the vault owner. -/
def EUnauthorized : Nat := 3
/-- Abort code: vault paused. -/
def EVaultPaused : Nat := 4
/-- Abort code: LTV above the safety threshold. -/
def ELTVExceeded : Nat := 5

/-- Source `MAX_LTV_BPS` constant of the vault module. -/
def MAX_LTV_BPS : Nat := 6400
/-- Basis-point denominator. -/
def BPS_DENOMINATOR : Nat := 10000

/-- The `Vault` object (the `id: UID` field is elided; the
`Balance<SUI>` collateral is embedded as its `u64` value). -/
structure Vault where
  owner : Nat
  collateral_balance : Nat
  borrowed_amount : Nat
  hedge_position_size : Nat
  created_at : Nat
  last_updated : Nat
  is_paused : Bool
deriving DecidableEq

/-- Source `DepositEvent` (the `vault_id` field is elided). -/
structure DepositEvent where
  depositor : Nat
  amount : Nat
  timestamp : Nat
deriving DecidableEq

/-- Source `create_vault`: a fresh unpaused vault owned by the sender. -/
def create_vault (sender now : Nat) : Vault :=
  { owner := sender
    collateral_balance := 0
    borrowed_amount := 0
    hedge_position_size := 0
    created_at := now
    last_updated := now
    is_paused := false }

/-- Source `deposit`: asserts the vault is not paused and the coin value is
positive, then joins the coin into the collateral balance, updates
`last_updated`, and emits a `DepositEvent` naming the sender.  There is no
ownership check in the source. -/
def deposit (v : Vault) (amount sender now : Nat) :
    Except Nat (Vault × DepositEvent) :=
  if v.is_paused then .error EVaultPaused
  else if amount = 0 then .error EDepositAmountZero
  else
    .ok ({ v with
            collateral_balance := v.collateral_balance + amount
            last_updated := now },
         { depositor := sender, amount := amount, timestamp := now })

/-- Source `withdraw`: owner-only, rejects while paused and when the amount exceeds
the balance; when debt is outstanding the source applies the simplified
local check `remaining > 0` (its comment defers the real check to the
`risk_manager` module).  The transferred coin and the event are elided. -/
def withdraw (v : Vault) (amount sender now : Nat) : Except Nat Vault :=
  if ¬ (v.owner = sender) then .error EUnauthorized
  else if v.is_paused then .error EVaultPaused
  else if ¬ (amount ≤ v.collateral_balance) then .error EInsufficientBalance
  else
    let remaining := v.collateral_balance - amount
    if v.borrowed_amount > 0 ∧ ¬ (remaining > 0) then .error ELTVExceeded
    else
      .ok { v with
              collateral_balance := remaining
              last_updated := now }

/-- Source `record_borrow`: owner-only, rejects while paused; computes
`ltv_bps = amount * 10000 / collateral` from the *new amount only* (with
`10000` when the collateral is zero), asserts it is at most the local
constant `MAX_LTV_BPS`, then adds the amount to `borrowed_amount`.  The
`BorrowEvent` is elided. -/
def record_borrow (v : Vault) (amount sender now : Nat) : Except Nat Vault :=
  if ¬ (v.owner = sender) then .error EUnauthorized
  else if v.is_paused then .error EVaultPaused
  else
    let collateral_value := v.collateral_balance
    let ltv_bps :=
      if collateral_value > 0 then amount * BPS_DENOMINATOR / collateral_value
      else BPS_DENOMINATOR
    if ¬ (ltv_bps ≤ MAX_LTV_BPS) then .error ELTVExceeded
    else
      .ok { v with
              borrowed_amount := v.borrowed_amount + amount
              last_updated := now }

/-- Source `record_hedge_position`: owner-only, rejects while paused; opening adds
to `hedge_position_size`, closing subtracts with saturation at zero.  The
`HedgePositionEvent` is elided. -/
def record_hedge_position (v : Vault) (position_size : Nat) (is_open : Bool)
    (sender now : Nat) : Except Nat Vault :=
  if ¬ (v.owner = sender) then .error EUnauthorized
  else if v.is_paused then .error EVaultPaused
  else
    let newSize :=
      if is_open then v.hedge_position_size + position_size
      else if v.hedge_position_size ≥ position_size then
        v.hedge_position_size - position_size
      else 0
    .ok { v with
            hedge_position_size := newSize
            last_updated := now }

/-- Source `get_current_ltv_bps`: `10000` for zero collateral, otherwise
`borrowed_amount * 10000 / collateral`. -/
def get_current_ltv_bps (v : Vault) : Nat :=
  if v.collateral_balance = 0 then BPS_DENOMINATOR
  else v.borrowed_amount * BPS_DENOMINATOR / v.collateral_balance

end vault

/-! ## TypeScript SDK: oracle_service.ts, deepbook_service.ts, ptb_builder.ts -/

namespace sdk

/-- Errors thrown by the SDK (`throw new Error(...)` sites). -/
inductive SdkError where
  | priceStale
  | priceConfidenceTooWide
  | orderBelowMinimum
  | priceNotPositive
deriving DecidableEq

/-- Source `PriceData` of `oracle_service.ts` (JS numbers embedded as rationals). -/
structure PriceData where
  price : Rat
  confidence : Rat
  publishTime : Nat
  expo : Int
deriving DecidableEq

/-- Oracle configuration (`maxPriceAge` seconds, `maxConfidenceRatio`). -/
structure OracleConfig where
  maxPriceAge : Nat
  maxConfidenceRatio : Rat
deriving DecidableEq

/-- Source `MAINNET_ORACLE_CONFIG`: 60-second freshness, 1% confidence ratio. -/
def MAINNET_ORACLE_CONFIG : OracleConfig :=
  { maxPriceAge := 60, maxConfidenceRatio := 1 / 100 }

/-- Source `OracleService.validatePriceData`: throws on `age > maxPriceAge`
(`age = now - publishTime`, signed) and on
`confidence / price > maxConfidenceRatio`.  The model covers positive
prices; JS division by zero is outside the modelled domain. -/
def validatePriceData (cfg : OracleConfig) (pd : PriceData) (now : Nat) :
    Except SdkError Unit :=
  if (now : Int) - (pd.publishTime : Int) > (cfg.maxPriceAge : Int) then
    .error SdkError.priceStale
  else if pd.confidence / pd.price > cfg.maxConfidenceRatio then
    .error SdkError.priceConfidenceTooWide
  else .ok ()

/-- Source `AtomicHedgeParams` of `ptb_builder.ts` (`suiAmount` in MIST). -/
structure AtomicHedgeParams where
  suiAmount : Nat
  targetLTV : Rat
  slippageTolerance : Rat
deriving DecidableEq

/-- Source `HedgeCalculation` of `ptb_builder.ts`: `borrowAmount` (USDC, 6
decimals) and `hedgeSize` (MIST, 9 decimals) are `BigInt`, the prices are
JS numbers. -/
structure HedgeCalculation where
  borrowAmount : Int
  hedgeSize : Int
  suiPrice : Rat
  limitPrice : Rat
deriving DecidableEq

/-- Source `PTBBuilder.calculateHedgeParams`: validates the price, then derives
`borrowAmount = floor(suiAmount / 1e9 * price * targetLTV * 1e6)`,
`hedgeSize = floor(borrowAmount / 1e6 / price * 1e9)` and
`limitPrice = price * (1 - slippageTolerance)`. -/
def calculateHedgeParams (cfg : OracleConfig) (params : AtomicHedgeParams)
    (pd : PriceData) (now : Nat) : Except SdkError HedgeCalculation :=
  match validatePriceData cfg pd now with
  | .error e => .error e
  | .ok _ =>
    let suiAmountNormalized : Rat := (params.suiAmount : Rat) / 10 ^ 9
    let borrowAmountUSD : Rat := suiAmountNormalized * pd.price * params.targetLTV
    let borrowAmount : Int := ⌊borrowAmountUSD * 10 ^ 6⌋
    let hedgeSize : Int := ⌊(borrowAmount : Rat) / 10 ^ 6 / pd.price * 10 ^ 9⌋
    .ok { borrowAmount := borrowAmount
          hedgeSize := hedgeSize
          suiPrice := pd.price
          limitPrice := pd.price * (1 - params.slippageTolerance) }

/-- Source `DeepBookConfig` of `config.ts`. -/
structure DeepBookConfig where
  suiUsdcPoolId : String
  minOrderSize : Nat
  priceDecimals : Nat
  quantityDecimals : Nat
deriving DecidableEq

/-- Source `DEEPBOOK_CONFIG.mainnet`: unconfigured pool id placeholder, minimum
order 1 SUI, 9 price and quantity decimals. -/
def DEEPBOOK_CONFIG_mainnet : DeepBookConfig :=
  { suiUsdcPoolId := "0x..."
    minOrderSize := 1000000000
    priceDecimals := 9
    quantityDecimals := 9 }

/-- Source `DeepBookService.isAvailable`: the pool id is longer than 10
characters and is not the placeholder. -/
def isAvailable (cfg : DeepBookConfig) : Bool :=
  decide (cfg.suiUsdcPoolId.length > 10) &&
    decide (¬ cfg.suiUsdcPoolId = "0x...")

/-- Source `DeepBookService.priceToDeepBookFormat`:
`BigInt(Math.floor(price * 10 ** priceDecimals))`. -/
def priceToDeepBookFormat (cfg : DeepBookConfig) (price : Rat) : Int :=
  ⌊price * 10 ^ cfg.priceDecimals⌋

/-- Source `DeepBookService.quantityToDeepBookFormat`:
`BigInt(Math.floor(quantity * 10 ** quantityDecimals))`. -/
def quantityToDeepBookFormat (cfg : DeepBookConfig) (quantity : Rat) : Int :=
  ⌊quantity * 10 ^ cfg.quantityDecimals⌋

/-- Source `DeepBookService.validateOrderParams`: throws when the quantity is
below `minOrderSize` and when the price is not positive. -/
def validateOrderParams (cfg : DeepBookConfig) (quantity price : Int) :
    Except SdkError Unit :=
  if quantity < (cfg.minOrderSize : Int) then .error SdkError.orderBelowMinimum
  else if price ≤ 0 then .error SdkError.priceNotPositive
  else .ok ()

/-- Output of `calculateHedgeOrderParams` (the `side` string is `sell`,
embedded as `isSell`). -/
structure HedgeOrderParams where
  hedgeSize : Rat
  limitPrice : Rat
  isSell : Bool
deriving DecidableEq

/-- Source `calculateHedgeOrderParams` of `deepbook_service.ts`:
`hedgeSize = borrowAmountUsdc / currentPrice`,
`limitPrice = currentPrice * (1 - slippageBps / 10000)`, a sell order. -/
def calculateHedgeOrderParams (borrowAmountUsdc currentPrice slippageBps : Rat) :
    HedgeOrderParams :=
  { hedgeSize := borrowAmountUsdc / currentPrice
    limitPrice := currentPrice * (1 - slippageBps / 10000)
    isSell := true }

/-- One operation added to the programmable transaction block. -/
inductive BuildStep where
  | oracleUpdate
  | depositCollateral
  | borrowQuick
  | hedgeOrder
deriving DecidableEq

/-- Source `PTBBuilder.buildAtomicHedgePTB` as a plan constructor: derive the
hedge calculation (validating the price), then add the oracle update, the
Scallop `depositCollateral`, and the Scallop `borrowQuick` to the block;
only then, and only when the DeepBook service is configured, convert the
limit price and hedge size to DeepBook format and run
`validateOrderParams` (a failure there throws, so no transaction is
returned); in this variant the hedge order itself is left commented out in
the source, so no `hedgeOrder` step is added; with the service
unconfigured the conversion and the check are skipped entirely and the
block is returned as built. -/
def buildAtomicHedgePTB (ocfg : OracleConfig) (db : DeepBookConfig)
    (params : AtomicHedgeParams) (pd : PriceData) (now : Nat) :
    Except SdkError (HedgeCalculation × List BuildStep) :=
  match calculateHedgeParams ocfg params pd now with
  | .error e => .error e
  | .ok hc =>
    let steps := [BuildStep.oracleUpdate, BuildStep.depositCollateral,
                  BuildStep.borrowQuick]
    if isAvailable db then
      let deepBookPrice := priceToDeepBookFormat db hc.limitPrice
      let deepBookQuantity :=
        quantityToDeepBookFormat db ((hc.hedgeSize : Rat) / 10 ^ 9)
      match validateOrderParams db deepBookQuantity deepBookPrice with
      | .error e => .error e
      | .ok _ => .ok (hc, steps)
    else .ok (hc, steps)

/-- Source `PTBBuilder.buildFullAtomicHedgePTB`: as `buildAtomicHedgePTB`, but
when the DeepBook service is configured and `validateOrderParams` passes
the limit sell order is actually added as the fourth step; when the
service is unconfigured the block is returned with no hedge step and no
minimum-size check. -/
def buildFullAtomicHedgePTB (ocfg : OracleConfig) (db : DeepBookConfig)
    (params : AtomicHedgeParams) (pd : PriceData) (now : Nat) :
    Except SdkError (HedgeCalculation × List BuildStep) :=
  match calculateHedgeParams ocfg params pd now with
  | .error e => .error e
  | .ok hc =>
    let steps := [BuildStep.oracleUpdate, BuildStep.depositCollateral,
                  BuildStep.borrowQuick]
    if isAvailable db then
      let deepBookPrice := priceToDeepBookFormat db hc.limitPrice
      let deepBookQuantity :=
        quantityToDeepBookFormat db ((hc.hedgeSize : Rat) / 10 ^ 9)
      match validateOrderParams db deepBookQuantity deepBookPrice with
      | .error e => .error e
      | .ok _ => .ok (hc, steps ++ [BuildStep.hedgeOrder])
    else .ok (hc, steps)

end sdk

/-! ## vault_tests (Move test module): integer hedge derivation -/

namespace vault_tests

/-- Source `test_hedge_calculation`: collateral value in 9-decimal USD,
`(sui_amount * sui_price) / 1e9`. -/
def hedge_collateral_value (sui_amount sui_price : Nat) : Nat :=
  sui_amount * sui_price / 1000000000

/-- Source `test_hedge_calculation`: borrow amount
`collateral_value * ltv / 10000`. -/
def hedge_borrow_amount (sui_amount sui_price ltv : Nat) : Nat :=
  hedge_collateral_value sui_amount sui_price * ltv / 10000

/-- Source `test_hedge_calculation`: hedge size
`borrow_amount * 1e9 / sui_price`. -/
def hedge_size (sui_amount sui_price ltv : Nat) : Nat :=
  hedge_borrow_amount sui_amount sui_price ltv * 1000000000 / sui_price

/-- Source `test_net_delta`: net delta of a long and a short position. -/
def net_delta (long_position short_position : Nat) : Nat :=
  long_position - short_position

end vault_tests

/-! ## Atomic execution of the four-step hedge unit -/

namespace ptb

/-- Sequential execution of PTB commands on the vault ledger; a failed
command (`none`) fails the whole run. -/
def runSteps : List (vault.Vault → Option vault.Vault) → vault.Vault →
    Option vault.Vault
  | [], v => some v
  | f :: fs, v =>
    match f v with
    | none => none
    | some v2 => runSteps fs v2

/-- Modelled from the spec: the all-or-nothing execution boundary that runs
a programmable transaction block is the Sui runtime, which is not among the
repository sources.  Per the atomicity contract of the spec the steps execute as
one indivisible unit, so a rejected step discards every intermediate
effect and leaves the pre-attempt ledger state. -/
def execPTB (steps : List (vault.Vault → Option vault.Vault))
    (v : vault.Vault) : vault.Vault :=
  (runSteps steps v).getD v

/-- Step 1 of `buildFullAtomicHedgePTB`: attach and verify the price
attestation (`assert_price_valid` gate); no ledger effect.  `venueOk`
injects the acceptance of the oracle venue. -/
def attachPriceStep (venueOk : Bool) (cfg : risk_manager.RiskConfig)
    (pd : risk_manager.PriceData) (now : Nat) :
    vault.Vault → Option vault.Vault :=
  fun v =>
    if venueOk then
      ((risk_manager.assert_price_valid cfg pd now).map (fun _ => v)).toOption
    else none

/-- Step 2: lock collateral with the custody venue and record it in the
ledger (`vault.deposit`); `venueOk` injects the acceptance of the venue. -/
def lockCollateralStep (venueOk : Bool) (amount sender now : Nat) :
    vault.Vault → Option vault.Vault :=
  fun v =>
    if venueOk then ((vault.deposit v amount sender now).map Prod.fst).toOption
    else none

/-- Step 3: draw debt from the lending venue and record it
(`vault.record_borrow`); `venueOk` injects the acceptance of the venue. -/
def drawDebtStep (venueOk : Bool) (amount sender now : Nat) :
    vault.Vault → Option vault.Vault :=
  fun v =>
    if venueOk then (vault.record_borrow v amount sender now).toOption
    else none

/-- Step 4: place the bounded hedge order and record the opened position
(`vault.record_hedge_position` with `is_open`); `venueOk` injects the
acceptance of the execution venue. -/
def placeHedgeStep (venueOk : Bool) (size sender now : Nat) :
    vault.Vault → Option vault.Vault :=
  fun v =>
    if venueOk then
      (vault.record_hedge_position v size true sender now).toOption
    else none

/-- The ordered four-step atomic hedge unit, with a per-step venue
acceptance injection `venue0` … `venue3`. -/
def hedgeSteps (venue0 venue1 venue2 venue3 : Bool)
    (cfg : risk_manager.RiskConfig) (pd : risk_manager.PriceData)
    (amount borrowAmt hedgeSz sender now : Nat) :
    List (vault.Vault → Option vault.Vault) :=
  [attachPriceStep venue0 cfg pd now,
   lockCollateralStep venue1 amount sender now,
   drawDebtStep venue2 borrowAmt sender now,
   placeHedgeStep venue3 hedgeSz sender now]

end ptb

/-! ## Concrete instances used by the theorems below -/

namespace fixtures

/-- The default risk configuration after `emergency_pause` at time 100. -/
def pausedConfig : risk_manager.RiskConfig :=
  risk_manager.emergency_pause risk_manager.initRiskConfig 100

/-- A fresh, tight price sample: price 100, zero confidence, published at
time 1000. -/
def freshPrice : risk_manager.PriceData :=
  { price := 100, confidence := 0, expo := 0, publish_time := 1000 }

/-- A vault owned by address 1 with 100 units of collateral and no debt. -/
def vaultA : vault.Vault :=
  { owner := 1
    collateral_balance := 100
    borrowed_amount := 0
    hedge_position_size := 0
    created_at := 0
    last_updated := 0
    is_paused := false }

/-- A vault owned by address 1 with 1000 units of collateral and 900 of
outstanding debt. -/
def vaultB : vault.Vault :=
  { vaultA with collateral_balance := 1000, borrowed_amount := 900 }

/-- Orchestration input: 1 SUI of collateral, target LTV fraction 0.64,
slippage tolerance 0.005. -/
def paramsSmall : sdk.AtomicHedgeParams :=
  { suiAmount := 1000000000, targetLTV := 16 / 25, slippageTolerance := 1 / 200 }

/-- Orchestration input: 100 SUI of collateral, target LTV fraction 0.64,
slippage tolerance 0.005. -/
def paramsLarge : sdk.AtomicHedgeParams :=
  { paramsSmall with suiAmount := 100000000000 }

/-- SDK price sample: 3.50 dollars, confidence 0.01, published at 1000. -/
def pdSample : sdk.PriceData :=
  { price := 7 / 2, confidence := 1 / 100, publishTime := 1000, expo := -8 }

/-- The hedge calculation derived from `paramsSmall` and `pdSample`:
borrow 2.24 USDC, hedge 0.64 SUI, limit price 3.4825. -/
def hcSmall : sdk.HedgeCalculation :=
  { borrowAmount := 2240000
    hedgeSize := 640000000
    suiPrice := 7 / 2
    limitPrice := 1393 / 400 }

/-- The hedge calculation derived from `paramsLarge` and `pdSample`:
borrow 224 USDC, hedge 64 SUI, limit price 3.4825. -/
def hcLarge : sdk.HedgeCalculation :=
  { borrowAmount := 224000000
    hedgeSize := 64000000000
    suiPrice := 7 / 2
    limitPrice := 1393 / 400 }

/-- A DeepBook configuration with the pool id actually set. -/
def dbConfigured : sdk.DeepBookConfig :=
  { sdk.DEEPBOOK_CONFIG_mainnet with suiUsdcPoolId := "0x1234567890ab" }

end fixtures

end AtomicQuant

open AtomicQuant AtomicQuant.fixtures

/-! ## Claim theorems -/

/-- Claim C6: for positive collateral `validate_ltv` computes
`floor(B * 10000 / C)` with truncating division and accepts exactly when it
is at most `max_ltv_bps`; with zero collateral it accepts exactly when the
borrow is zero.  Stated for an unpaused configuration (the validator aborts
while paused) and inside the `u64` range of the product. -/
theorem C6_validate_ltv_exact (cfg : risk_manager.RiskConfig) (C B : Nat)
    (hpaused : cfg.is_system_paused = false) (_hrange : B * 10000 < 2 ^ 64) :
    (0 < C → (risk_manager.validate_ltv cfg C B = Except.ok true ↔
        B * 10000 / C ≤ cfg.max_ltv_bps)) ∧
    (risk_manager.validate_ltv cfg 0 B = Except.ok true ↔ B = 0) := by
  constructor
  · intro hC
    have hC0 : ¬ C = 0 := by omega
    unfold risk_manager.validate_ltv
    rw [if_neg (by simp [hpaused]), if_neg hC0]
    by_cases h : B * risk_manager.BPS_DENOMINATOR / C > cfg.max_ltv_bps
    · rw [if_pos h]
      simp only [risk_manager.BPS_DENOMINATOR] at h
      simp only [Except.ok.injEq, Bool.false_eq_true, false_iff]
      omega
    · rw [if_neg h]
      simp only [risk_manager.BPS_DENOMINATOR] at h
      simp only [Except.ok.injEq, eq_self_iff_true, true_iff]
      omega
  · unfold risk_manager.validate_ltv
    rw [if_neg (by simp [hpaused]), if_pos rfl]
    simp

/-- Witness for C6 at the default configuration, collateral 100 and borrow
50 (LTV 5000 bps, accepted at the 6400 bps ceiling). -/
theorem C6_validate_ltv_exact_witness :
    risk_manager.initRiskConfig.is_system_paused = false ∧
    50 * 10000 < 2 ^ 64 ∧
    ((0 < 100 →
        (risk_manager.validate_ltv risk_manager.initRiskConfig 100 50 =
            Except.ok true ↔
          50 * 10000 / 100 ≤ risk_manager.initRiskConfig.max_ltv_bps)) ∧
      (risk_manager.validate_ltv risk_manager.initRiskConfig 0 50 =
          Except.ok true ↔ (50 : Nat) = 0)) :=
  ⟨by decide, by decide,
    C6_validate_ltv_exact risk_manager.initRiskConfig 100 50 (by decide)
      (by decide)⟩

/-- Claim C7: for an unpaused configuration, `validate_price_data` accepts
exactly when the price is not stale (`now ≤ publish_time + max_price_age`,
boundary accepted) and, for a positive price, the confidence ratio
`confidence * 10000 / price` is within `max_confidence_ratio_bps`; a zero
price skips the confidence division; it rejects exactly in the
complementary cases.  Bounds keep the `u64` arithmetic in range. -/
theorem C7_validate_price_exact (cfg : risk_manager.RiskConfig)
    (pd : risk_manager.PriceData) (now : Nat)
    (hpaused : cfg.is_system_paused = false)
    (_hr1 : pd.publish_time + cfg.max_price_age < 2 ^ 64)
    (_hr2 : pd.confidence * 10000 < 2 ^ 64) :
    (risk_manager.validate_price_data cfg pd now = Except.ok true ↔
      (now ≤ pd.publish_time + cfg.max_price_age ∧
        (0 < pd.price →
          pd.confidence * 10000 / pd.price ≤ cfg.max_confidence_ratio_bps))) ∧
    (risk_manager.validate_price_data cfg pd now = Except.ok false ↔
      (pd.publish_time + cfg.max_price_age < now ∨
        (0 < pd.price ∧
          cfg.max_confidence_ratio_bps < pd.confidence * 10000 / pd.price))) := by
  unfold risk_manager.validate_price_data
  rw [if_neg (by simp [hpaused])]
  by_cases h1 : now > pd.publish_time + cfg.max_price_age
  · rw [if_pos h1]
    constructor
    · simp only [Except.ok.injEq, Bool.false_eq_true, false_iff]
      intro hcon
      exact absurd hcon.1 (by omega)
    · simp only [Except.ok.injEq, eq_self_iff_true, true_iff]
      exact Or.inl h1
  · rw [if_neg h1]
    by_cases h2 : pd.price > 0 ∧
        pd.confidence * risk_manager.BPS_DENOMINATOR / pd.price >
          cfg.max_confidence_ratio_bps
    · rw [if_pos h2]
      have h2b := h2.2
      simp only [risk_manager.BPS_DENOMINATOR] at h2b
      constructor
      · simp only [Except.ok.injEq, Bool.false_eq_true, false_iff]
        intro hcon
        exact absurd (hcon.2 h2.1) (not_le.mpr h2b)
      · simp only [Except.ok.injEq, eq_self_iff_true, true_iff]
        exact Or.inr ⟨h2.1, h2b⟩
    · rw [if_neg h2]
      constructor
      · simp only [Except.ok.injEq, eq_self_iff_true, true_iff]
        refine ⟨by omega, fun hp => ?_⟩
        by_contra hgt
        exact h2 ⟨hp, by simpa [risk_manager.BPS_DENOMINATOR] using not_le.mp hgt⟩
      · simp only [Except.ok.injEq, Bool.true_eq_false, false_iff]
        intro hor
        rcases hor with hs | hc
        · exact absurd hs (by omega)
        · exact h2 ⟨hc.1, by simpa [risk_manager.BPS_DENOMINATOR] using hc.2⟩

/-- Witness for C7 at the staleness example of the spec: published 30 seconds
ago with a 60-second maximum age and a tight confidence, accepted. -/
theorem C7_validate_price_exact_witness :
    risk_manager.initRiskConfig.is_system_paused = false ∧
    freshPrice.publish_time + risk_manager.initRiskConfig.max_price_age <
      2 ^ 64 ∧
    freshPrice.confidence * 10000 < 2 ^ 64 ∧
    ((risk_manager.validate_price_data risk_manager.initRiskConfig freshPrice
          1030 = Except.ok true ↔
        (1030 ≤ freshPrice.publish_time +
            risk_manager.initRiskConfig.max_price_age ∧
          (0 < freshPrice.price →
            freshPrice.confidence * 10000 / freshPrice.price ≤
              risk_manager.initRiskConfig.max_confidence_ratio_bps))) ∧
      (risk_manager.validate_price_data risk_manager.initRiskConfig freshPrice
          1030 = Except.ok false ↔
        (freshPrice.publish_time + risk_manager.initRiskConfig.max_price_age <
            1030 ∨
          (0 < freshPrice.price ∧
            risk_manager.initRiskConfig.max_confidence_ratio_bps <
              freshPrice.confidence * 10000 / freshPrice.price)))) :=
  ⟨by decide, by decide, by decide,
    C7_validate_price_exact risk_manager.initRiskConfig freshPrice 1030
      (by decide) (by decide) (by decide)⟩

/-- Claim C2 (failing on the code): with the system paused,
`assert_price_valid` performs no pause check and accepts a fresh,
tight price, returning normally; on the same inputs the boolean validator
`validate_price_data` aborts with `ESystemPaused`, as the claim expects of
every variant. -/
theorem C2_assert_price_valid_ignores_pause :
    pausedConfig.is_system_paused = true ∧
    risk_manager.assert_price_valid pausedConfig freshPrice 1000 =
      Except.ok () ∧
    risk_manager.validate_price_data pausedConfig freshPrice 1000 =
      Except.error risk_manager.ESystemPaused := by
  refine ⟨by decide, by decide, by decide⟩

/-- Claim C3 (failing on the code): `record_borrow` computes the LTV from
the newly borrowed amount alone, so two successive borrows of 64 against
collateral 100 both pass the 6400 bps check and leave the vault at
12800 bps, above the maximum. -/
theorem C3_record_borrow_ignores_existing_debt :
    ((vault.record_borrow vaultA 64 1 7).bind fun v1 =>
        vault.record_borrow v1 64 1 8).map
        (fun v => (v.collateral_balance, v.borrowed_amount,
          vault.get_current_ltv_bps v)) =
      Except.ok (100, 128, 12800) ∧
    risk_manager.initRiskConfig.max_ltv_bps = 6400 ∧
    vault.MAX_LTV_BPS = 6400 ∧ (6400 : Nat) < 12800 := by
  refine ⟨by decide, by decide, by decide, by decide⟩

/-- Claim C4 (failing on the code): with 1000 collateral and 900 debt, the
owner withdraws 999; the local rule of the source only demands a positive
remainder, so the call succeeds and leaves the vault at 9000000 bps,
although `validate_ltv` on the post-withdrawal state rejects it. -/
theorem C4_withdraw_skips_risk_engine :
    (vault.withdraw vaultB 999 1 9).map
        (fun v => (v.collateral_balance, v.borrowed_amount,
          vault.get_current_ltv_bps v)) =
      Except.ok (1, 900, 9000000) ∧
    risk_manager.validate_ltv risk_manager.initRiskConfig 1 900 =
      Except.ok false := by
  refine ⟨by decide, by decide⟩

/-- Claim C9: `update_risk_params` writes exactly `max_ltv_bps`,
`max_price_age`, `max_slippage_bps`, `max_position_size` and
`last_updated`; `max_confidence_ratio_bps` and `is_system_paused` are
unchanged by every call. -/
theorem C9_update_risk_params_frame (cfg : risk_manager.RiskConfig)
    (a b c d now : Nat) :
    (risk_manager.update_risk_params cfg a b c d now).max_confidence_ratio_bps =
        cfg.max_confidence_ratio_bps ∧
    (risk_manager.update_risk_params cfg a b c d now).is_system_paused =
        cfg.is_system_paused ∧
    (risk_manager.update_risk_params cfg a b c d now).max_ltv_bps = a ∧
    (risk_manager.update_risk_params cfg a b c d now).max_price_age = b ∧
    (risk_manager.update_risk_params cfg a b c d now).max_slippage_bps = c ∧
    (risk_manager.update_risk_params cfg a b c d now).max_position_size = d ∧
    (risk_manager.update_risk_params cfg a b c d now).last_updated = now :=
  ⟨rfl, rfl, rfl, rfl, rfl, rfl, rfl⟩

/-- Claim C10: `deposit` performs no ownership check: it succeeds exactly
when the vault is unpaused and the coin value is positive, never yields the
authorization abort code, and its resulting vault state is the same for
every sender (the sender only appears in the emitted event). -/
theorem C10_deposit_open_access (v : vault.Vault)
    (amount sender sender2 now : Nat) :
    ((∃ r, vault.deposit v amount sender now = Except.ok r) ↔
      (v.is_paused = false ∧ 0 < amount)) ∧
    (∀ e, vault.deposit v amount sender now = Except.error e →
      ¬ e = vault.EUnauthorized) ∧
    ((vault.deposit v amount sender now).map Prod.fst =
      (vault.deposit v amount sender2 now).map Prod.fst) := by
  refine ⟨?_, ?_, ?_⟩
  · unfold vault.deposit
    cases hb : v.is_paused with
    | true => simp [hb]
    | false =>
      by_cases ha : amount = 0
      · simp [ha]
      · simp [ha]
        omega
  · unfold vault.deposit
    split_ifs with hp ha
    · intro e he
      injection he with h
      subst h
      decide
    · intro e he
      injection he with h
      subst h
      decide
    · intro e he
      cases he
  · unfold vault.deposit
    split_ifs <;> rfl

/-- Witness for C10: a non-owner (address 9) deposits 5 into the vault of
address 1, with the same resulting vault state as a deposit by address 8. -/
theorem C10_deposit_open_access_witness :
    ((∃ r, vault.deposit vaultA 5 9 2 = Except.ok r) ↔
      (vaultA.is_paused = false ∧ 0 < 5)) ∧
    (∀ e, vault.deposit vaultA 5 9 2 = Except.error e →
      ¬ e = vault.EUnauthorized) ∧
    ((vault.deposit vaultA 5 9 2).map Prod.fst =
      (vault.deposit vaultA 5 8 2).map Prod.fst) :=
  C10_deposit_open_access vaultA 5 9 8 2

/-- Helper: a run of PTB commands fails whenever some command of the list
fails on every state. -/
theorem runSteps_eq_none_of_mem (fs : List (vault.Vault → Option vault.Vault))
    (f : vault.Vault → Option vault.Vault) (hf : f ∈ fs)
    (hnone : ∀ s, f s = none) (v : vault.Vault) :
    ptb.runSteps fs v = none := by
  induction fs generalizing v with
  | nil => cases hf
  | cons g gs ih =>
    rcases List.mem_cons.mp hf with hg | hmem
    · subst hg
      simp [ptb.runSteps, hnone v]
    · cases hgv : g v with
      | none => simp [ptb.runSteps, hgv]
      | some v2 => simpa [ptb.runSteps, hgv] using ih hmem v2

/-- Claim C1: in the four-step atomic hedge unit (attach price, lock
collateral, draw debt, place hedge order), a rejection injected at any one
of the four steps leaves the post-failure ledger — collateral balance,
borrowed amount, hedge position size — exactly at its pre-attempt values. -/
theorem C1_atomic_hedge_rollback (venue0 venue1 venue2 venue3 : Bool)
    (cfg : risk_manager.RiskConfig) (pd : risk_manager.PriceData)
    (amount borrowAmt hedgeSz sender now : Nat) (v : vault.Vault)
    (hfail : venue0 = false ∨ venue1 = false ∨ venue2 = false ∨
      venue3 = false) :
    (ptb.execPTB (ptb.hedgeSteps venue0 venue1 venue2 venue3 cfg pd amount
        borrowAmt hedgeSz sender now) v).collateral_balance =
      v.collateral_balance ∧
    (ptb.execPTB (ptb.hedgeSteps venue0 venue1 venue2 venue3 cfg pd amount
        borrowAmt hedgeSz sender now) v).borrowed_amount =
      v.borrowed_amount ∧
    (ptb.execPTB (ptb.hedgeSteps venue0 venue1 venue2 venue3 cfg pd amount
        borrowAmt hedgeSz sender now) v).hedge_position_size =
      v.hedge_position_size := by
  have hnone : ptb.runSteps (ptb.hedgeSteps venue0 venue1 venue2 venue3 cfg
      pd amount borrowAmt hedgeSz sender now) v = none := by
    rcases hfail with h | h | h | h
    · exact runSteps_eq_none_of_mem _ (ptb.attachPriceStep venue0 cfg pd now)
        (by simp [ptb.hedgeSteps]) (fun s => by simp [ptb.attachPriceStep, h]) v
    · exact runSteps_eq_none_of_mem _
        (ptb.lockCollateralStep venue1 amount sender now)
        (by simp [ptb.hedgeSteps]) (fun s => by simp [ptb.lockCollateralStep, h]) v
    · exact runSteps_eq_none_of_mem _
        (ptb.drawDebtStep venue2 borrowAmt sender now)
        (by simp [ptb.hedgeSteps]) (fun s => by simp [ptb.drawDebtStep, h]) v
    · exact runSteps_eq_none_of_mem _
        (ptb.placeHedgeStep venue3 hedgeSz sender now)
        (by simp [ptb.hedgeSteps]) (fun s => by simp [ptb.placeHedgeStep, h]) v
  simp [ptb.execPTB, hnone]

/-- Witness for C1: failing the debt-draw step on a concrete vault leaves
collateral, debt and hedge size untouched. -/
theorem C1_atomic_hedge_rollback_witness :
    (true = false ∨ true = false ∨ false = false ∨ true = false) ∧
    ((ptb.execPTB (ptb.hedgeSteps true true false true
        risk_manager.initRiskConfig freshPrice 10 5 5 1 1001 ) vaultA).collateral_balance =
      vaultA.collateral_balance ∧
    (ptb.execPTB (ptb.hedgeSteps true true false true
        risk_manager.initRiskConfig freshPrice 10 5 5 1 1001 ) vaultA).borrowed_amount =
      vaultA.borrowed_amount ∧
    (ptb.execPTB (ptb.hedgeSteps true true false true
        risk_manager.initRiskConfig freshPrice 10 5 5 1 1001 ) vaultA).hedge_position_size =
      vaultA.hedge_position_size) :=
  ⟨by decide,
    C1_atomic_hedge_rollback true true false true risk_manager.initRiskConfig
      freshPrice 10 5 5 1 1001 vaultA (by decide)⟩

/-- Claim C5 (failing on the code): with the DeepBook pool unconfigured —
the shipped mainnet configuration — the orchestrator derives a hedge of
0.64 SUI, below the 1 SUI venue minimum, yet returns the built plan with
the oracle, deposit and borrow steps instead of rejecting it. -/
theorem C5_counterexample :
    sdk.buildAtomicHedgePTB sdk.MAINNET_ORACLE_CONFIG
        sdk.DEEPBOOK_CONFIG_mainnet paramsSmall pdSample 1000 =
      Except.ok (hcSmall,
        [sdk.BuildStep.oracleUpdate, sdk.BuildStep.depositCollateral,
         sdk.BuildStep.borrowQuick]) ∧
    hcSmall.hedgeSize = 640000000 ∧
    (640000000 : Int) < (sdk.DEEPBOOK_CONFIG_mainnet.minOrderSize : Int) := by
  refine ⟨?_, rfl, by decide⟩
  norm_num [sdk.buildAtomicHedgePTB, sdk.calculateHedgeParams,
    sdk.validatePriceData, sdk.isAvailable, sdk.MAINNET_ORACLE_CONFIG,
    sdk.DEEPBOOK_CONFIG_mainnet, paramsSmall, pdSample, hcSmall]

/-- Claim C5 (amended): the orchestrator validates price freshness and
confidence before composing any step, and the minimum-order-size gate runs
only when the DeepBook pool is configured — then a hedge quantity below the
venue minimum fails the whole build, so no transaction is produced. -/
theorem C5_amended_prevalidation (ocfg : sdk.OracleConfig)
    (db : sdk.DeepBookConfig) (params : sdk.AtomicHedgeParams)
    (pd : sdk.PriceData) (now : Nat) :
    (∀ r, sdk.buildAtomicHedgePTB ocfg db params pd now = Except.ok r →
      sdk.validatePriceData ocfg pd now = Except.ok ()) ∧
    (∀ hc, sdk.calculateHedgeParams ocfg params pd now = Except.ok hc →
      sdk.isAvailable db = true →
      sdk.quantityToDeepBookFormat db ((hc.hedgeSize : Rat) / 10 ^ 9) <
        (db.minOrderSize : Int) →
      sdk.buildAtomicHedgePTB ocfg db params pd now =
        Except.error sdk.SdkError.orderBelowMinimum) := by
  constructor
  · intro r hr
    cases hval : sdk.validatePriceData ocfg pd now with
    | ok u => cases u; rfl
    | error e =>
      exfalso
      unfold sdk.buildAtomicHedgePTB sdk.calculateHedgeParams at hr
      rw [hval] at hr
      simp at hr
  · intro hc hcalc havail hqty
    unfold sdk.buildAtomicHedgePTB
    rw [hcalc]
    simp only [havail, if_true]
    unfold sdk.validateOrderParams
    rw [if_pos hqty]

/-- Witness for C5 (amended): with a configured pool, the small plan whose
hedge is 0.64 SUI is rejected with the below-minimum error. -/
theorem C5_amended_prevalidation_witness :
    sdk.calculateHedgeParams sdk.MAINNET_ORACLE_CONFIG paramsSmall pdSample
        1000 = Except.ok hcSmall ∧
    sdk.isAvailable dbConfigured = true ∧
    sdk.quantityToDeepBookFormat dbConfigured
        ((hcSmall.hedgeSize : Rat) / 10 ^ 9) <
      (dbConfigured.minOrderSize : Int) ∧
    sdk.buildAtomicHedgePTB sdk.MAINNET_ORACLE_CONFIG dbConfigured
        paramsSmall pdSample 1000 =
      Except.error sdk.SdkError.orderBelowMinimum :=
  ⟨by norm_num [sdk.calculateHedgeParams, sdk.validatePriceData,
      sdk.MAINNET_ORACLE_CONFIG, paramsSmall, pdSample, hcSmall],
    by decide,
    by norm_num [sdk.quantityToDeepBookFormat, dbConfigured,
      sdk.DEEPBOOK_CONFIG_mainnet, hcSmall],
    (C5_amended_prevalidation sdk.MAINNET_ORACLE_CONFIG dbConfigured
        paramsSmall pdSample 1000).2 hcSmall
      (by norm_num [sdk.calculateHedgeParams, sdk.validatePriceData,
        sdk.MAINNET_ORACLE_CONFIG, paramsSmall, pdSample, hcSmall])
      (by decide)
      (by norm_num [sdk.quantityToDeepBookFormat, dbConfigured,
        sdk.DEEPBOOK_CONFIG_mainnet, hcSmall])⟩

/-- Claim C8: the hedge derivation follows borrow = C·p·f,
hedge = borrow / p = C·f and limit = p·(1 − s/10000) for the sell leg
(exact over rationals), and at the instance C = 100 SUI, p = 3.50,
f = 0.64 the orchestrator derives borrow 224 USDC and hedge 64 SUI — as
does the integer pipeline of the Move test — with residual exposure
36 SUI. -/
theorem C8_hedge_derivation (C p f s : Rat) (hp : p ≠ 0) :
    (sdk.calculateHedgeOrderParams (C * p * f) p s).hedgeSize = C * f ∧
    (sdk.calculateHedgeOrderParams (C * p * f) p s).limitPrice =
      p * (1 - s / 10000) ∧
    sdk.calculateHedgeParams sdk.MAINNET_ORACLE_CONFIG paramsLarge pdSample
        1000 = Except.ok hcLarge ∧
    hcLarge.borrowAmount = 224000000 ∧
    hcLarge.hedgeSize = 64000000000 ∧
    vault_tests.hedge_borrow_amount 100000000000 3500000000 6400 =
      224000000000 ∧
    vault_tests.hedge_size 100000000000 3500000000 6400 = 64000000000 ∧
    vault_tests.net_delta 100000000000 64000000000 = 36000000000 := by
  refine ⟨?_, rfl, ?_, rfl, rfl, by decide, by decide, by decide⟩
  · unfold sdk.calculateHedgeOrderParams
    field_simp
    ring
  · norm_num [sdk.calculateHedgeParams, sdk.validatePriceData,
      sdk.MAINNET_ORACLE_CONFIG, paramsLarge, paramsSmall, pdSample, hcLarge]

/-- Witness for C8 at price 3.50, collateral 100, fraction 0.64,
slippage 50 bps. -/
theorem C8_hedge_derivation_witness :
    ((7 : Rat) / 2 ≠ 0) ∧
    ((sdk.calculateHedgeOrderParams (100 * (7 / 2) * (16 / 25)) (7 / 2)
        50).hedgeSize = 100 * (16 / 25) ∧
    (sdk.calculateHedgeOrderParams (100 * (7 / 2) * (16 / 25)) (7 / 2)
        50).limitPrice = 7 / 2 * (1 - 50 / 10000) ∧
    sdk.calculateHedgeParams sdk.MAINNET_ORACLE_CONFIG paramsLarge pdSample
        1000 = Except.ok hcLarge ∧
    hcLarge.borrowAmount = 224000000 ∧
    hcLarge.hedgeSize = 64000000000 ∧
    vault_tests.hedge_borrow_amount 100000000000 3500000000 6400 =
      224000000000 ∧
    vault_tests.hedge_size 100000000000 3500000000 6400 = 64000000000 ∧
    vault_tests.net_delta 100000000000 64000000000 = 36000000000) :=
  ⟨by norm_num,
    C8_hedge_derivation 100 (7 / 2) (16 / 25) 50 (by norm_num)⟩
